import Mathlib

/-!
Shallow embedding of the Buddy browser front end
(`src/web/static/js/app.js`): chat transport, task sync, filter buttons
and the voice-recorder state machine.  Backend HTTP calls are modelled as
values of type `Except Unit _` (an `Except.error` covers both a transport
error and a non-success HTTP status, since the code turns the latter into
a thrown exception caught by the same `catch`).  The rendered DOM is
modelled structurally: the chat pane is a list of messages, the task pane
is a `RenderedTasks` value.  Side effects (task reloads, uploads,
microphone releases, audio playback) are recorded explicitly in the
result types.
-/

namespace Buddy

/-- Sender of a chat message, `'user'` or `'assistant'` in `addMessageToUI`. -/
inductive Sender
  | user
  | assistant
  deriving DecidableEq, Repr

/-- A rendered chat bubble: `addMessageToUI(sender, content)` builds a
message div holding a paragraph whose `textContent` is `content`. -/
structure Message where
  sender : Sender
  text : String
  deriving DecidableEq, Repr

/-- `addMessageToUI` appends a new message div to `chatMessages`
(app.js lines 102-124). -/
def addMessageToUI (msgs : List Message) (sender : Sender) (content : String) :
    List Message :=
  msgs ++ [{ sender := sender, text := content }]

/-- The fields of a `/api/chat` JSON response that the client reads:
`data.text` and `data.tasks_extracted` (`none` models an absent field,
for which the JS comparison `undefined > 0` is false). -/
structure ChatResponse where
  text : String
  tasks_extracted : Option Nat
  deriving DecidableEq, Repr

/-- The fixed fallback assistant message of the chat `catch` branch
(app.js line 98). -/
def chatErrorText : String := "Sorry, there was an error processing your request."

/-- The JS condition `data.tasks_extracted > 0` on an optional numeric
field: false when the field is absent. -/
def tasksExtractedPos : Option Nat → Bool
  | some n => decide (0 < n)
  | none => false

/-- Observable outcome of `fetchChatResponse`: the resulting chat pane,
the `loadTasks` calls it issued (with their filter, in order), and how
many further `/api/chat` requests it issued (retries). -/
structure ChatEffects where
  messages : List Message
  reloads : List String
  retries : Nat
  deriving DecidableEq, Repr

/-- `fetchChatResponse(message)` (app.js lines 68-100), evaluated against
the backend reply `resp`.  `activeFilter` is the `data-filter` of the
`.tasks-filter button.active` element read on line 93. -/
def fetchChatResponse (msgs : List Message) (activeFilter : String)
    (resp : Except Unit ChatResponse) : ChatEffects :=
  match resp with
  | Except.ok data =>
      { messages := addMessageToUI msgs Sender.assistant data.text
        reloads := if tasksExtractedPos data.tasks_extracted then [activeFilter] else []
        retries := 0 }
  | Except.error _ =>
      { messages := addMessageToUI msgs Sender.assistant chatErrorText
        reloads := []
        retries := 0 }

/-- The character class stripped by JavaScript `String.prototype.trim`:
ECMA-262 WhiteSpace (TAB, VT, FF, SP, NBSP, ZWNBSP and the Zs spaces)
plus LineTerminator (LF, CR, LS, PS). -/
def jsIsWhitespace (c : Char) : Bool :=
  c.toNat = 0x09 || c.toNat = 0x0A || c.toNat = 0x0B || c.toNat = 0x0C ||
  c.toNat = 0x0D || c.toNat = 0x20 || c.toNat = 0xA0 || c.toNat = 0x1680 ||
  (0x2000 ≤ c.toNat && c.toNat ≤ 0x200A) ||
  c.toNat = 0x2028 || c.toNat = 0x2029 || c.toNat = 0x202F ||
  c.toNat = 0x205F || c.toNat = 0x3000 || c.toNat = 0xFEFF

/-- Drops the leading JS-whitespace characters. -/
def dropLeadingWs : List Char → List Char
  | [] => []
  | c :: cs => if jsIsWhitespace c then dropLeadingWs cs else c :: cs

/-- JavaScript `String.prototype.trim`: strips JS whitespace from both
ends. -/
def jsTrim (s : String) : String :=
  String.mk (List.reverse (dropLeadingWs (List.reverse (dropLeadingWs s.data))))

/-- The chat pane plus the text input field, the state `sendMessage`
reads and writes. -/
structure ChatInputState where
  messages : List Message
  inputValue : String
  deriving DecidableEq, Repr

/-- `sendMessage` (app.js lines 54-66): trims the input; if empty,
returns without any change; otherwise renders the user message, clears
the input and issues the request (the returned `Option String` is the
`message` passed to `fetchChatResponse`, `none` meaning no request). -/
def sendMessage (st : ChatInputState) : ChatInputState × Option String :=
  let message := jsTrim st.inputValue
  if message = "" then (st, none)
  else
    ({ messages := addMessageToUI st.messages Sender.user message
       inputValue := "" },
     some message)

/-- A task object of the `/api/tasks` response: `{id, description,
status, created_at}`.  All fields are opaque strings to the client. -/
structure Task where
  id : String
  description : String
  status : String
  created_at : String
  deriving DecidableEq, Repr

/-- A task card's action button, wired to `updateTaskStatus` with the
target status (`'completed'` for Complete, `'pending'` for Reopen). -/
inductive TaskAction
  | complete
  | reopen
  deriving DecidableEq, Repr

/-- The DOM card `renderTasks` builds per task (app.js lines 154-195):
class `task-item <status>`, `data-id`, description, meta (date span and
status span) and the status-dependent action buttons.  The date span
holds `new Date(created_at).toLocaleString()`; we keep the raw
`created_at` string, as its locale formatting is outside the model. -/
structure TaskCard where
  id : String
  className : String
  description : String
  dateText : String
  statusText : String
  actions : List TaskAction
  deriving DecidableEq, Repr

/-- One task's card, as built in the `tasks.forEach` body. -/
def renderTaskCard (task : Task) : TaskCard :=
  { id := task.id
    className := "task-item " ++ task.status
    description := task.description
    dateText := task.created_at
    statusText := task.status
    actions :=
      if task.status = "pending" then [TaskAction.complete]
      else if task.status = "completed" then [TaskAction.reopen]
      else [] }

/-- Content of the `tasks-list` element: the error message written by the
`loadTasks` catch branch, the literal empty-state paragraph, or the list
of task cards.  Each constructor corresponds to one full `innerHTML`
replacement, so setting a new value discards whatever was rendered. -/
inductive RenderedTasks
  | errorState
  | emptyState
  | cards (items : List TaskCard)
  deriving DecidableEq, Repr

/-- `renderTasks(tasks)` (app.js lines 146-196): the empty-state
paragraph for an empty array, otherwise one card per task. -/
def renderTasks (tasks : List Task) : RenderedTasks :=
  if tasks.length = 0 then RenderedTasks.emptyState
  else RenderedTasks.cards (tasks.map renderTaskCard)

/-- The optional `status` query parameter of the `/api/tasks` URL:
appended exactly when `filter !== 'all'` (app.js lines 128-131). -/
def tasksQuery (filter : String) : Option String :=
  if filter ≠ "all" then some filter else none

/-- A backend for GET `/api/tasks`: maps the optional `status` query to a
reply whose `tasks` field may be absent (`Option`, since the client
guards with `data.tasks || []`). -/
def TasksBackend : Type := Option String → Except Unit (Option (List Task))

/-- `loadTasks(filter)` (app.js lines 126-144), evaluated against the
backend `server`: renders `data.tasks || []` on success and the error
paragraph on failure. -/
def loadTasks (server : TasksBackend) (filter : String) : RenderedTasks :=
  match server (tasksQuery filter) with
  | Except.ok data => renderTasks (data.getD [])
  | Except.error _ => RenderedTasks.errorState

/-- The `tasks-list` update performed by `loadTasks`: the previous pane
content `old` is an input of the real DOM operation, and both branches
overwrite it wholesale via `innerHTML` assignment, so the result never
depends on it. -/
def loadTasksInto (_old : RenderedTasks) (server : TasksBackend)
    (filter : String) : RenderedTasks :=
  loadTasks server filter

/-- Number of task cards shown in the pane. -/
def cardCount : RenderedTasks → Nat
  | RenderedTasks.cards items => items.length
  | _ => 0

/-- `updateTaskStatus(taskId, status)` (app.js lines 198-217), evaluated
against the PUT outcome `resp` and the GET backend `server`: on success
it reads the active filter and calls `loadTasks` with it (the returned
list records the reload calls); on failure it only logs, leaving the
pane `panel` as it was. -/
def updateTaskStatus (panel : RenderedTasks) (activeFilter : String)
    (resp : Except Unit Unit) (server : TasksBackend) :
    RenderedTasks × List String :=
  match resp with
  | Except.ok _ => (loadTasks server activeFilter, [activeFilter])
  | Except.error _ => (panel, [])

/-- A `.tasks-filter` button: its `data-filter` value and whether it has
the `active` class. -/
structure FilterButton where
  filter : String
  active : Bool
  deriving DecidableEq, Repr

/-- `filterButtons.forEach(btn => btn.classList.remove('active'))`. -/
def deactivateAll (buttons : List FilterButton) : List FilterButton :=
  buttons.map fun b => { b with active := false }

/-- `button.classList.add('active')` on the button at position `i`. -/
def setActiveAt : List FilterButton → Nat → List FilterButton
  | [], _ => []
  | b :: bs, 0 => { b with active := true } :: bs
  | b :: bs, n + 1 => b :: setActiveAt bs n

/-- The click handler of filter button `i` (app.js lines 34-40), button
state part: removes `active` from every button, then adds it to the
clicked one. -/
def clickFilterButton (buttons : List FilterButton) (i : Nat) :
    List FilterButton :=
  setActiveAt (deactivateAll buttons) i

/-- The `data-filter` of the button at position `i` (the value the click
handler passes to `loadTasks`). -/
def filterAt (buttons : List FilterButton) (i : Nat) : String :=
  ((buttons.getD i { filter := "", active := false })).filter

/-- The full click handler of filter button `i`: the new button states
and the task pane produced by `loadTasks(button.dataset.filter)`. -/
def clickFilterEffect (buttons : List FilterButton) (i : Nat)
    (server : TasksBackend) : List FilterButton × RenderedTasks :=
  (clickFilterButton buttons i, loadTasks server (filterAt buttons i))

/-- The `data-filter` values of the buttons carrying the `active` class. -/
def activeFilters (buttons : List FilterButton) : List String :=
  (buttons.filter fun b => b.active).map fun b => b.filter

/-- Number of buttons carrying the `active` class. -/
def countActive (buttons : List FilterButton) : Nat :=
  (buttons.filter fun b => b.active).length

/-- State of the voice recorder (app.js lines 13-16 and 219-267):
`isRecording` and `audioChunks` are the module-level variables, the
`voiceButton*` fields mirror the button's text, title and `recording`
class, and the counters record the cumulative side effects: microphone
acquisitions (`getUserMedia` grants), uploads (`sendVoiceRecording`
invocations from the recorder's `stop` listener), microphone releases
(`stream.getTracks().forEach(track => track.stop())` runs), and
permission-denial alerts. -/
structure RecorderState where
  isRecording : Bool
  audioChunks : List String
  micAcquisitions : Nat
  uploads : Nat
  micReleases : Nat
  alerts : Nat
  voiceButtonText : String
  voiceButtonTitle : String
  voiceButtonRecordingClass : Bool
  deriving DecidableEq, Repr

/-- `startRecording` (app.js lines 227-257), with `getUserMedia` resolved
in place: a no-op guard when already recording; on grant, a fresh
recorder over a newly acquired stream, empty `audioChunks`, `isRecording
= true` and the stop-button appearance; on denial, an alert and no state
change. -/
def startRecording (permissionGranted : Bool) (st : RecorderState) :
    RecorderState :=
  if st.isRecording then st
  else if permissionGranted then
    { st with
      audioChunks := []
      micAcquisitions := st.micAcquisitions + 1
      isRecording := true
      voiceButtonText := "⏹️"
      voiceButtonTitle := "Stop recording"
      voiceButtonRecordingClass := true }
  else { st with alerts := st.alerts + 1 }

/-- `stopRecording` (app.js lines 259-267), with the recorder's `stop`
event handler (lines 239-245) folded in: a no-op guard when idle;
otherwise `mediaRecorder.stop()` fires the handler once — the
accumulated chunks become one blob handed to `sendVoiceRecording` (one
upload) and every track of the stream is stopped (one microphone
release) — then `isRecording = false` and the idle-button appearance. -/
def stopRecording (st : RecorderState) : RecorderState :=
  if !st.isRecording then st
  else
    { st with
      uploads := st.uploads + 1
      micReleases := st.micReleases + 1
      isRecording := false
      voiceButtonText := "🎤"
      voiceButtonTitle := "Voice Input"
      voiceButtonRecordingClass := false }

/-- `toggleVoiceRecording` (app.js lines 219-225). -/
def toggleVoiceRecording (permissionGranted : Bool) (st : RecorderState) :
    RecorderState :=
  if st.isRecording then stopRecording st
  else startRecording permissionGranted st

/-- The recorder state on page load: idle, no chunks, no side effects
yet, microphone-button appearance from the HTML. -/
def initialRecorder : RecorderState :=
  { isRecording := false
    audioChunks := []
    micAcquisitions := 0
    uploads := 0
    micReleases := 0
    alerts := 0
    voiceButtonText := "🎤"
    voiceButtonTitle := "Voice Input"
    voiceButtonRecordingClass := false }

/-- The fields of a `/api/voice` JSON response that the client reads:
`data.text` (absent or empty modelled as `""`, both falsy for the
`data.text || ...` guard), optional `data.voice_data` (base64 audio) and
optional `data.tasks_extracted`. -/
structure VoiceResponse where
  text : String
  voice_data : Option String
  tasks_extracted : Option Nat
  deriving DecidableEq, Repr

/-- The provisional user-side placeholder appended before the upload
(app.js line 272). -/
def voicePlaceholderText : String := "🎤 Processing voice message..."

/-- The fixed fallback substituted for an empty transcription
(app.js line 293). -/
def couldNotTranscribeText : String := "(Could not transcribe audio)"

/-- The fixed fallback assistant message of the voice `catch` branch
(app.js line 310). -/
def voiceErrorText : String := "Sorry, there was an error processing your voice message."

/-- Lines 291-293: `messages[messages.length - 1]` is the last rendered
message; its paragraph's `textContent` is overwritten. -/
def setLastMessageText (msgs : List Message) (t : String) : List Message :=
  match msgs with
  | [] => []
  | [m] => [{ m with text := t }]
  | m :: rest => m :: setLastMessageText rest t

/-- Observable outcome of `sendVoiceRecording`: the resulting chat pane,
the base64 payloads handed to `playAudioResponse`, and the `loadTasks`
calls issued (with their filter). -/
structure VoiceEffects where
  messages : List Message
  audioPlayed : List String
  reloads : List String
  deriving DecidableEq, Repr

/-- `sendVoiceRecording(audioBlob)` (app.js lines 269-312), evaluated
against the backend reply `resp`: appends the placeholder, then on
success overwrites the last message's text with `data.text ||
'(Could not transcribe audio)'`, appends the assistant reply
`data.text`, plays `data.voice_data` when present and reloads tasks when
`data.tasks_extracted > 0`; on failure appends the fixed fallback and
touches nothing else. -/
def sendVoiceRecording (msgs : List Message) (activeFilter : String)
    (resp : Except Unit VoiceResponse) : VoiceEffects :=
  let msgs1 := addMessageToUI msgs Sender.user voicePlaceholderText
  match resp with
  | Except.ok data =>
      let msgs2 := setLastMessageText msgs1
        (if data.text = "" then couldNotTranscribeText else data.text)
      let msgs3 := addMessageToUI msgs2 Sender.assistant data.text
      { messages := msgs3
        audioPlayed := data.voice_data.toList
        reloads := if tasksExtractedPos data.tasks_extracted then [activeFilter] else [] }
  | Except.error _ =>
      { messages := addMessageToUI msgs1 Sender.assistant voiceErrorText
        audioPlayed := []
        reloads := [] }

/-! Helper lemmas. -/

/-- After `deactivateAll`, no button carries the `active` class. -/
theorem activeFilters_deactivateAll (bs : List FilterButton) :
    activeFilters (deactivateAll bs) = [] := by
  induction bs with
  | nil => rfl
  | cons b rest ih => simp [activeFilters, deactivateAll, List.filter_cons]

/-- Clicking a valid button index leaves exactly that button active. -/
theorem activeFilters_click (bs : List FilterButton) :
    ∀ (i : Nat) (h : i < bs.length),
      activeFilters (clickFilterButton bs i) = [(bs.get ⟨i, h⟩).filter] := by
  induction bs with
  | nil => intro i h; exact absurd h (Nat.not_lt_zero i)
  | cons b rest ih =>
    intro i h
    cases i with
    | zero =>
      have hrest := activeFilters_deactivateAll rest
      simp only [activeFilters, deactivateAll] at hrest
      simp [clickFilterButton, deactivateAll, setActiveAt, activeFilters,
        List.filter_cons, hrest]
    | succ n =>
      have h' : n < rest.length := Nat.lt_of_succ_lt_succ h
      have hr := ih n h'
      simp only [clickFilterButton, deactivateAll] at hr
      simpa [clickFilterButton, deactivateAll, setActiveAt, activeFilters,
        List.filter_cons] using hr

/-- `countActive` counts the entries of `activeFilters`. -/
theorem countActive_eq_length (bs : List FilterButton) :
    countActive bs = (activeFilters bs).length := by
  simp [countActive, activeFilters]

/-- At a valid index, `filterAt` is the `data-filter` of that button. -/
theorem filterAt_eq (bs : List FilterButton) :
    ∀ (i : Nat) (h : i < bs.length), filterAt bs i = (bs.get ⟨i, h⟩).filter := by
  induction bs with
  | nil => intro i h; exact absurd h (Nat.not_lt_zero i)
  | cons b rest ih =>
    intro i h
    cases i with
    | zero => rfl
    | succ n => exact ih n (Nat.lt_of_succ_lt_succ h)

/-- Overwriting the last message's text of a list ending in `m` replaces
only `m`'s text. -/
theorem setLastMessageText_append (msgs : List Message) (m : Message) (t : String) :
    setLastMessageText (msgs ++ [m]) t = msgs ++ [{ m with text := t }] := by
  induction msgs with
  | nil => rfl
  | cons a rest ih =>
    cases rest with
    | nil => rfl
    | cons b bs =>
      simpa [setLastMessageText] using ih

/-! Claim theorems. -/

/-- Claim C1: starting from an idle recorder, toggling twice in
succession yields exactly one upload attempt and exactly one microphone
release; and invoking `startRecording` while already recording, or
`stopRecording` while idle, changes nothing. -/
theorem recorder_toggle_pair (st : RecorderState) (h : st.isRecording = false) :
    ((toggleVoiceRecording true (toggleVoiceRecording true st)).uploads =
        st.uploads + 1 ∧
     (toggleVoiceRecording true (toggleVoiceRecording true st)).micReleases =
        st.micReleases + 1) ∧
    (∀ (p : Bool) (s : RecorderState), s.isRecording = true →
      startRecording p s = s) ∧
    (∀ s : RecorderState, s.isRecording = false → stopRecording s = s) := by
  refine ⟨?_, ?_, ?_⟩
  · simp [toggleVoiceRecording, startRecording, stopRecording, h]
  · intro p s hs
    simp [startRecording, hs]
  · intro s hs
    simp [stopRecording, hs]

/-- Witness for C1 at the page-load recorder state. -/
theorem recorder_toggle_pair_witness :
    (toggleVoiceRecording true (toggleVoiceRecording true initialRecorder)).uploads =
        initialRecorder.uploads + 1 ∧
    (toggleVoiceRecording true (toggleVoiceRecording true initialRecorder)).micReleases =
        initialRecorder.micReleases + 1 :=
  (recorder_toggle_pair initialRecorder rfl).1

/-- Claim C2: a successful chat response with `tasks_extracted > 0`
triggers exactly one task reload, under the currently active filter;
with the field absent or zero, no reload is triggered. -/
theorem chat_reload_exactly_once (msgs : List Message) (f : String)
    (data : ChatResponse) :
    (∀ n : Nat, data.tasks_extracted = some n → 0 < n →
      (fetchChatResponse msgs f (Except.ok data)).reloads = [f]) ∧
    ((data.tasks_extracted = none ∨ data.tasks_extracted = some 0) →
      (fetchChatResponse msgs f (Except.ok data)).reloads = []) := by
  constructor
  · intro n hn hpos
    simp [fetchChatResponse, tasksExtractedPos, hn, hpos]
  · rintro (hn | hn) <;> simp [fetchChatResponse, tasksExtractedPos, hn]

/-- Witness for C2: a response with two extracted tasks reloads once
under the active filter, one with none extracted does not reload. -/
theorem chat_reload_exactly_once_witness :
    (fetchChatResponse [] "all"
        (Except.ok { text := "ok", tasks_extracted := some 2 })).reloads = ["all"] ∧
    (fetchChatResponse [] "all"
        (Except.ok { text := "ok", tasks_extracted := none })).reloads = [] :=
  ⟨(chat_reload_exactly_once [] "all" _).1 2 rfl (by decide),
   (chat_reload_exactly_once [] "all" _).2 (Or.inl rfl)⟩

/-- Claim C3: on a successful voice response, the placeholder's text is
overwritten with the transcription (or the fixed fallback when it is
empty) and a separate assistant reply is appended after it. -/
theorem voice_success_render (msgs : List Message) (f : String)
    (data : VoiceResponse) :
    (sendVoiceRecording msgs f (Except.ok data)).messages =
      msgs ++ [{ sender := Sender.user
                 text := if data.text = "" then couldNotTranscribeText else data.text },
               { sender := Sender.assistant, text := data.text }] := by
  simp [sendVoiceRecording, addMessageToUI, setLastMessageText_append]

/-- Claim C4: when the trimmed input is empty, `sendMessage` issues no
request and changes neither the chat list nor the input field. -/
theorem sendMessage_empty_noop (st : ChatInputState)
    (h : jsTrim st.inputValue = "") : sendMessage st = (st, none) := by
  simp [sendMessage, h]

/-- Witness for C4: a whitespace-only input is dropped untouched. -/
theorem sendMessage_empty_noop_witness :
    sendMessage { messages := [], inputValue := "   " } =
      ({ messages := [], inputValue := "   " }, none) :=
  sendMessage_empty_noop { messages := [], inputValue := "   " } (by decide)

/-- Claim C5: a failed chat call appends exactly one fixed fallback
assistant message, leaves every previously rendered message (the user's
included) unchanged, and issues no retry and no reload. -/
theorem chat_failure_fallback (msgs : List Message) (f : String) (e : Unit) :
    fetchChatResponse msgs f (Except.error e) =
      { messages := msgs ++ [{ sender := Sender.assistant, text := chatErrorText }]
        reloads := []
        retries := 0 } :=
  rfl

/-- Claim C6: `updateTaskStatus` never edits the pane directly — on
success the pane becomes exactly `loadTasks` under the active filter
(one reload); on failure the pane is returned unchanged with no
reload. -/
theorem updateTaskStatus_never_local (panel : RenderedTasks) (f : String)
    (server : TasksBackend) :
    updateTaskStatus panel f (Except.ok ()) server = (loadTasks server f, [f]) ∧
    updateTaskStatus panel f (Except.error ()) server = (panel, []) :=
  ⟨rfl, rfl⟩

/-- Claim C7: clicking any filter button leaves exactly one button
active — the clicked one — and re-renders the task pane by a fresh
`loadTasks` under that button's filter. -/
theorem filter_click_invariant (buttons : List FilterButton) (i : Nat)
    (server : TasksBackend) (h : i < buttons.length) :
    countActive (clickFilterButton buttons i) = 1 ∧
    activeFilters (clickFilterButton buttons i) = [(buttons.get ⟨i, h⟩).filter] ∧
    clickFilterEffect buttons i server =
      (clickFilterButton buttons i, loadTasks server ((buttons.get ⟨i, h⟩).filter)) := by
  refine ⟨?_, activeFilters_click buttons i h, ?_⟩
  · rw [countActive_eq_length, activeFilters_click buttons i h]
    rfl
  · rw [clickFilterEffect, filterAt_eq buttons i h]

/-- The three filter buttons of the page, `all` initially active. -/
def sampleButtons : List FilterButton :=
  [{ filter := "all", active := true },
   { filter := "pending", active := false },
   { filter := "completed", active := false }]

/-- Witness for C7: clicking the `pending` button. -/
theorem filter_click_invariant_witness :
    countActive (clickFilterButton sampleButtons 1) = 1 ∧
    activeFilters (clickFilterButton sampleButtons 1) = ["pending"] ∧
    clickFilterEffect sampleButtons 1 (fun _ => Except.error ()) =
      (clickFilterButton sampleButtons 1, RenderedTasks.errorState) := by
  have h := filter_click_invariant sampleButtons 1 (fun _ => Except.error ())
    (by decide)
  refine ⟨h.1, ?_, ?_⟩
  · simpa [sampleButtons] using h.2.1
  · simpa [sampleButtons, loadTasks, tasksQuery] using h.2.2

/-- Claim C8: a failed voice upload appends exactly one fixed fallback
assistant message while the placeholder's text stays the provisional
processing text; nothing is played and nothing reloaded. -/
theorem voice_failure_placeholder_kept (msgs : List Message) (f : String)
    (e : Unit) :
    sendVoiceRecording msgs f (Except.error e) =
      { messages := msgs ++
          [{ sender := Sender.user, text := voicePlaceholderText },
           { sender := Sender.assistant, text := voiceErrorText }]
        audioPlayed := []
        reloads := [] } := by
  simp [sendVoiceRecording, addMessageToUI]

/-- Claim C9: a successful tasks fetch returning an empty list renders
the empty-state message with zero task cards, whatever the pane showed
before. -/
theorem empty_tasks_render (old : RenderedTasks) (server : TasksBackend)
    (f : String) (h : server (tasksQuery f) = Except.ok (some [])) :
    loadTasksInto old server f = RenderedTasks.emptyState ∧
    cardCount (loadTasksInto old server f) = 0 := by
  constructor <;> simp [loadTasksInto, loadTasks, h, renderTasks, cardCount]

/-- A sample pending task, as the backend would return it. -/
def sampleTask : Task :=
  { id := "1"
    description := "buy milk"
    status := "pending"
    created_at := "2024-01-01T00:00:00Z" }

/-- Witness for C9: an empty fetch wipes a pane holding one card. -/
theorem empty_tasks_render_witness :
    loadTasksInto (RenderedTasks.cards [renderTaskCard sampleTask])
        (fun _ => Except.ok (some [])) "pending" = RenderedTasks.emptyState ∧
    cardCount (loadTasksInto (RenderedTasks.cards [renderTaskCard sampleTask])
        (fun _ => Except.ok (some [])) "pending") = 0 :=
  empty_tasks_render (RenderedTasks.cards [renderTaskCard sampleTask])
    (fun _ => Except.ok (some [])) "pending" rfl

/-- Claim C10: the assistant reply appended on voice success carries
exactly the response's `text` field, so an empty transcription yields an
empty assistant bubble even though the placeholder gets the fixed
fallback. -/
theorem voice_reply_uses_text_field (msgs : List Message) (f : String)
    (data : VoiceResponse) :
    ((sendVoiceRecording msgs f (Except.ok data)).messages.getLast? =
        some { sender := Sender.assistant, text := data.text }) ∧
    (data.text = "" →
      (sendVoiceRecording msgs f (Except.ok data)).messages =
        msgs ++ [{ sender := Sender.user, text := couldNotTranscribeText },
                 { sender := Sender.assistant, text := "" }]) := by
  constructor
  · simp [sendVoiceRecording, addMessageToUI]
  · intro h
    simp [sendVoiceRecording, addMessageToUI, setLastMessageText_append, h]

/-- Witness for C10: an empty transcription. -/
theorem voice_reply_uses_text_field_witness :
    (sendVoiceRecording [] "all"
        (Except.ok { text := "", voice_data := none, tasks_extracted := none })).messages =
      [{ sender := Sender.user, text := couldNotTranscribeText },
       { sender := Sender.assistant, text := "" }] := by
  simpa using
    (voice_reply_uses_text_field [] "all"
      { text := "", voice_data := none, tasks_extracted := none }).2 rfl

end Buddy
